import Mathlib

/-!
Verification of the VocabLah spaced-repetition engine against its specification.

Embedding conventions:
- JavaScript numbers are modelled as rationals; every constant appearing in the
  engine (1.3, 0.2, 0.15, 60, ...) is an exact decimal, so the rational model
  computes the same values the algorithm prescribes.
- Calendar dates (ISO strings at day granularity) are modelled as integer day
  numbers; a timestamp in milliseconds is the day number times 86400000, and
  in minutes the day number times 1440.
- The functions of utils/date.ts are not shipped in the source tree; the
  authoritative versions quoted in src/CODE_REVIEW.md (the CURRENT snippets)
  are embedded for the claims about them.  Where the engine merely calls a
  date helper, the helper is passed as an explicit parameter so the claims
  about the scheduler itself hold for every choice of date helper.
- React state updates inside one event callback read the render-time values
  captured by the closure; the session-state model reproduces that by using
  the pre-update batch length exactly where the source closure does.
-/

namespace VocabLah

/-- The four grades of utils/srs.ts, type Difficulty. -/
inductive Difficulty
  | again
  | hard
  | good
  | easy
deriving DecidableEq, Repr

/-- The VocabWord record of types.ts.  Dates are integer day numbers. -/
structure VocabWord where
  id : Int
  word : String
  meaning : String
  mastered : Bool
  createdAt : Int
  collectionId : Option String
  easeFactor : ℚ
  interval : ℚ
  repetitions : Nat
  nextReviewDate : Int
  lastReviewDate : Option Int
deriving DecidableEq, Repr

/-- The object returned by getSRSSettings in utils/srs.ts.  A limit of none
models the Infinity produced for the stored string value unlimited. -/
structure SRSSettings where
  newCardsLimit : Option Nat
  maxReviewsLimit : Option Nat
  autoMature : Bool
  learningSteps : List ℚ
deriving DecidableEq, Repr

/-- JavaScript Math.round: round half toward positive infinity. -/
def jsRound (q : ℚ) : Int := ⌊q + 1 / 2⌋

/-- The newInterval local of calculateSM2 (utils/srs.ts lines 106, 117,
122-128).  In the source the repetitions-at-least-2 branch multiplies by
newEaseFactor, which at that point still equals word.easeFactor because the
ease adjustment happens afterwards. -/
def sm2NewInterval (settings : SRSSettings) (word : VocabWord)
    (difficulty : Difficulty) : ℚ :=
  if difficulty = .again then 0
  else if word.repetitions = 0 then settings.learningSteps.getD 0 0
  else if word.repetitions = 1 then settings.learningSteps.getD 1 0
  else (jsRound (word.interval * word.easeFactor) : ℚ)

/-- The newRepetitions local of calculateSM2 (lines 107, 116, 130). -/
def sm2NewRepetitions (word : VocabWord) (difficulty : Difficulty) : Nat :=
  if difficulty = .again then 0 else word.repetitions + 1

/-- The newEaseFactor local of calculateSM2 (lines 108, 119, 133-139). -/
def sm2NewEaseFactor (word : VocabWord) (difficulty : Difficulty) : ℚ :=
  if difficulty = .again then max 1.3 (word.easeFactor - 0.2)
  else if difficulty = .hard then max 1.3 (word.easeFactor - 0.15)
  else if difficulty = .easy then word.easeFactor + 0.15
  else word.easeFactor

/-- The isMastered local of calculateSM2 (lines 146-159): start from the
current flag, promote when auto-mature is on and the new interval is at
least 60, and finally keep an already mastered word mastered. -/
def sm2IsMastered (autoMature : Bool) (wordMastered : Bool)
    (newInterval : ℚ) : Bool :=
  let m0 := wordMastered
  let m1 := if autoMature then
      if (60 : ℚ) ≤ newInterval then true else m0
    else m0
  if wordMastered then true else m1

/-- calculateSM2 from utils/srs.ts lines 102-170, with the ambient inputs made
explicit: today comes from getTodayDate, addDaysF is the addDays helper of
utils/date.ts, settings comes from getSRSSettings. -/
def calculateSM2 (addDaysF : Int → ℚ → Int) (today : Int)
    (settings : SRSSettings) (word : VocabWord) (difficulty : Difficulty) :
    VocabWord :=
  { word with
    interval := sm2NewInterval settings word difficulty
    repetitions := sm2NewRepetitions word difficulty
    easeFactor := sm2NewEaseFactor word difficulty
    nextReviewDate := addDaysF today (sm2NewInterval settings word difficulty)
    lastReviewDate := some today
    mastered := sm2IsMastered settings.autoMature word.mastered
      (sm2NewInterval settings word difficulty) }

/-- A date helper that ignores the interval, used only to instantiate
scheduler claims that do not depend on the date computation. -/
def idDate : Int → ℚ → Int := fun t _ => t

/-- Default settings of the source: limits 10 and 100, auto-mature on,
learning steps 1 and 6. -/
def defaultSettings : SRSSettings :=
  { newCardsLimit := some 10
    maxReviewsLimit := some 100
    autoMature := true
    learningSteps := [1, 6] }

/-- A fresh word as created by the application: ease 2.5, interval 0,
repetitions 0. -/
def freshWord : VocabWord :=
  { id := 1
    word := "w"
    meaning := "m"
    mastered := false
    createdAt := 0
    collectionId := none
    easeFactor := 2.5
    interval := 0
    repetitions := 0
    nextReviewDate := 0
    lastReviewDate := none }

/-- A word that has already been marked mastered. -/
def masteredWord : VocabWord := { freshWord with mastered := true }

/-- A word deep in review: interval 40 days, two successful repetitions. -/
def matureWord : VocabWord := { freshWord with interval := 40, repetitions := 2 }

/-- A due review-type word (repetitions greater than 0) with the given id. -/
def reviewWord (i : Int) : VocabWord := { freshWord with id := i, repetitions := 1 }

/-- Five due review-type words, the batch of the quota scenario. -/
def scenarioWords : List VocabWord :=
  [reviewWord 1, reviewWord 2, reviewWord 3, reviewWord 4, reviewWord 5]

/-- The learning-steps branch of getSRSSettings (utils/srs.ts lines 21 and
27): the stored JSON value as parsed, where none means the key was absent so
the default string parses to the list 1, 6; a parse result that is not an
array of length at least 2 also falls back to that default. -/
inductive StoredSteps
  | arr (l : List ℚ)
  | other
deriving DecidableEq, Repr

/-- Normalization of the stored learning steps performed by getSRSSettings
(utils/srs.ts line 27).  No value is clamped or floored: an array of length
at least 2 is used verbatim. -/
def loadLearningSteps : Option StoredSteps → List ℚ
  | none => [1, 6]
  | some (.arr l) => if 2 ≤ l.length then l else [1, 6]
  | some .other => [1, 6]

section SessionQueue

/-- The session-relevant component state of ReviewMode.tsx: currentBatchIds,
currentIndex, completedIds and isBatchComplete. -/
structure SessionState where
  batch : List Int
  idx : Nat
  completed : List Int
  complete : Bool
deriving DecidableEq, Repr

/-- JavaScript Set.add on the completed-ids set, modelled on lists. -/
def insertId (x : Int) (l : List Int) : List Int :=
  if x ∈ l then l else l ++ [x]

/-- handleNext from ReviewMode.tsx lines 185-192.  The length it compares
against is the render-time currentBatchIds captured by the closure, passed
here as staleLen.  The source comparison currentIndex less than length - 1
over JavaScript numbers equals idx + 1 less than length over naturals. -/
def handleNext (staleLen : Nat) (s : SessionState) : SessionState :=
  if s.idx + 1 < staleLen then { s with idx := s.idx + 1 }
  else { s with complete := true }

/-- The queue transition of handleRate from ReviewMode.tsx lines 201-233:
an again grade appends the current id to the batch tail, any other grade adds
the id to the completed set; then handleNext runs against the render-time
batch length, which does not include an append made in the same callback. -/
def handleRate (s : SessionState) (d : Difficulty) : SessionState :=
  match s.batch.get? s.idx with
  | none => s
  | some cur =>
    let s1 := if d = .again then { s with batch := s.batch ++ [cur] }
      else { s with completed := insertId cur s.completed }
    handleNext s.batch.length s1

end SessionQueue

section Quota

/-- The per-date daily counters persisted by utils/srs.ts (keys
vocab-lah-daily-reviews and vocab-lah-daily-new-cards), keyed by day number. -/
structure CountsStore where
  reviews : Int → Nat
  newCards : Int → Nat

/-- getDailyCounts from utils/srs.ts lines 31-40. -/
def getDailyCounts (today : Int) (st : CountsStore) : Nat × Nat :=
  (st.reviews today, st.newCards today)

/-- incrementDailyCounts from utils/srs.ts lines 42-52. -/
def incrementDailyCounts (today : Int) (r n : Nat) (st : CountsStore) :
    CountsStore :=
  { reviews := fun day => if day = today then st.reviews day + r else st.reviews day
    newCards := fun day => if day = today then st.newCards day + n else st.newCards day }

/-- handleSessionComplete from ReviewMode.tsx lines 194-199: the counters are
incremented only outside practice mode. -/
def handleSessionComplete (isPracticeMode : Bool)
    (completedSize newStartedSize : Nat) (today : Int) (st : CountsStore) :
    CountsStore :=
  if isPracticeMode then st
  else incrementDailyCounts today completedSize newStartedSize st

/-- The data effects of handleRate (ReviewMode.tsx lines 201-233) on the word
copies: the transient session copy that is updated for display, and the list
of onUpdateWord persistence calls made. -/
structure RateEffect where
  sessionWords : List VocabWord
  persisted : List VocabWord

/-- handleRate always computes the updated copy with calculateSM2 and writes
it into the in-memory session list; onUpdateWord is invoked only outside
practice mode (ReviewMode.tsx lines 204, 211-213, 220-222). -/
def handleRateEffects (isPracticeMode : Bool) (addDaysF : Int → ℚ → Int)
    (today : Int) (settings : SRSSettings) (sessionWords : List VocabWord)
    (word : VocabWord) (d : Difficulty) : RateEffect :=
  let updatedWord := calculateSM2 addDaysF today settings word d
  { sessionWords :=
      sessionWords.map fun x => if x.id = updatedWord.id then updatedWord else x
    persisted := if isPracticeMode then [] else [updatedWord] }

end Quota

section StartSession

/-- Arithmetic on quota slots where none models Infinity.  limSub models
JavaScript Math.max of 0 and limit minus count, which on naturals is
truncated subtraction; Infinity minus anything stays Infinity. -/
def limSub : Option Nat → Nat → Option Nat
  | none, _ => none
  | some l, c => some (l - c)

/-- The test availableReviewSlots less than or equal to 0; false for
Infinity. -/
def limLeZero : Option Nat → Bool
  | none => false
  | some k => k == 0

/-- JavaScript Math.min where none models Infinity. -/
def limMin : Option Nat → Option Nat → Option Nat
  | none, b => b
  | some a, none => some a
  | some a, some b => some (min a b)

/-- Array.slice from 0 to a possibly infinite bound. -/
def limTake : Option Nat → List VocabWord → List VocabWord
  | none, xs => xs
  | some k, xs => xs.take k

/-- The collection narrowing of handleStartSession (ReviewMode.tsx lines
84-90): a null id or the literal id all leaves the list unchanged. -/
def applyCollectionFilter (cid : Option String) (ws : List VocabWord) :
    List VocabWord :=
  match cid with
  | some c => if c = "all" then ws else ws.filter fun w => w.collectionId = some c
  | none => ws

/-- The outcome of handleStartSession: the three early returns that leave the
caller on the setup screen, or a successful batch. -/
inductive StartResult
  | quotaExhausted
  | dailyLimitsReached
  | noCards
  | ok (batch : List VocabWord)
deriving DecidableEq, Repr

/-- Length of the successful batch, zero for a failed start. -/
def StartResult.batchLength : StartResult → Nat
  | .ok b => b.length
  | _ => 0

/-- handleStartSession from ReviewMode.tsx lines 77-152, as a function of the
due predicate (isCardDue, whose date test lives outside the shipped tree),
the mode, the selected collection, the loaded settings, today's counter
values, and the session-size cap (none for the all setting).  The returned
batch is the ordered list the component stores in currentBatchIds; each
failing branch models the early return that keeps the setup screen shown. -/
def handleStartSession (dueF : VocabWord → Bool) (practiceMode : Bool)
    (cid : Option String) (s : SRSSettings) (cr cn : Nat)
    (sessionLimit : Option Nat) (words : List VocabWord) : StartResult :=
  let filtered0 := if practiceMode then words else words.filter dueF
  let filtered := applyCollectionFilter cid filtered0
  if practiceMode then
    let allowed := limTake sessionLimit filtered
    if allowed.isEmpty then .noCards else .ok allowed
  else
    let newCards := filtered.filter fun w => w.repetitions = 0
    let reviewCards := filtered.filter fun w => 0 < w.repetitions
    let availableNewSlots := limSub s.newCardsLimit cn
    let availableReviewSlots := limSub s.maxReviewsLimit cr
    if limLeZero availableReviewSlots then .quotaExhausted
    else
      let limitedReviews := limTake availableReviewSlots reviewCards
      let spaceLeftForNew := limSub availableReviewSlots limitedReviews.length
      let finalNewCards := limTake (limMin availableNewSlots spaceLeftForNew) newCards
      let allowed := limTake sessionLimit (limitedReviews ++ finalNewCards)
      if allowed.isEmpty && !filtered.isEmpty then .dailyLimitsReached
      else if allowed.isEmpty then .noCards
      else .ok allowed

/-- The candidate pool the specification describes for a successful normal
start under finite limits M (max reviews) and N (new cards): reviews
truncated to the review slots, then new items truncated to the lesser of the
new-card slots and the space left.  Stated from the words of the
specification, to be compared with handleStartSession. -/
def specQuotaPool (dueF : VocabWord → Bool) (cid : Option String)
    (M N cr cn : Nat) (words : List VocabWord) : List VocabWord :=
  let filtered := applyCollectionFilter cid (words.filter dueF)
  let reviews := (filtered.filter fun w => 0 < w.repetitions).take (M - cr)
  reviews ++
    (filtered.filter fun w => w.repetitions = 0).take
      (min (N - cn) (M - cr - reviews.length))

end StartSession

section DateUtils

/-- Milliseconds per day, the divisor of getDaysDifference. -/
def msPerDay : ℚ := 86400000

/-- getDaysDifference as quoted in src/CODE_REVIEW.md lines 110-116 (the
CURRENT version): both date strings parse to UTC midnight, so getTime is the
day number times 86400000; the difference goes through Math.abs and the ratio
through Math.ceil. -/
def getDaysDifference (date1 date2 : Int) : Int :=
  let diffTime : ℚ := |(date2 : ℚ) * msPerDay - (date1 : ℚ) * msPerDay|
  ⌈diffTime / msPerDay⌉

/-- addDays as quoted in src/CODE_REVIEW.md lines 29-33 (the CURRENT
version), in minutes.  new Date parses the string at UTC midnight; getDate
and setDate act on the local wall clock, offAtUtc giving the offset of a UTC
instant; setDate keeps the local time of day and the Date object rederives
the UTC timestamp from the updated local fields using the offset in force
there, offAtLocal; toISOString truncates the UTC instant back to a date. -/
def addDaysJS (offAtUtc offAtLocal : Int → Int) (d n : Int) : Int :=
  let t := d * 1440
  let localT := t + offAtUtc t
  let localDay := Int.fdiv localT 1440
  let localMin := localT - 1440 * localDay
  let newLocalT := (localDay + n) * 1440 + localMin
  let t2 := newLocalT - offAtLocal newLocalT
  Int.fdiv t2 1440

/-- A timezone with a spring-forward transition: offset 0 minutes before UTC
minute 144000 (midnight of day 100) and 60 minutes afterwards. -/
def dstOffsetUtc (t : Int) : Int := if t < 144000 then 0 else 60

/-- The same transition read on the local wall clock; the evaluation points
used below are far from the transition, where every reading agrees. -/
def dstOffsetLocal (l : Int) : Int := if l < 144000 then 0 else 60

end DateUtils

/-! Theorems.  Each claim of the specification gets exactly one theorem below;
shared projection lemmas come first. -/

lemma calcSM2_interval (addF : Int → ℚ → Int) (today : Int) (s : SRSSettings)
    (w : VocabWord) (d : Difficulty) :
    (calculateSM2 addF today s w d).interval = sm2NewInterval s w d := rfl

lemma calcSM2_repetitions (addF : Int → ℚ → Int) (today : Int)
    (s : SRSSettings) (w : VocabWord) (d : Difficulty) :
    (calculateSM2 addF today s w d).repetitions = sm2NewRepetitions w d := rfl

lemma calcSM2_easeFactor (addF : Int → ℚ → Int) (today : Int)
    (s : SRSSettings) (w : VocabWord) (d : Difficulty) :
    (calculateSM2 addF today s w d).easeFactor = sm2NewEaseFactor w d := rfl

lemma calcSM2_mastered (addF : Int → ℚ → Int) (today : Int) (s : SRSSettings)
    (w : VocabWord) (d : Difficulty) :
    (calculateSM2 addF today s w d).mastered
      = sm2IsMastered s.autoMature w.mastered (sm2NewInterval s w d) := rfl

/-- C10: calculateSM2 changes only the scheduling fields; the returned copy
keeps the id, word, meaning, collectionId and createdAt of its input, for
every grade and every date helper. -/
theorem calculateSM2_frame_spec (addF : Int → ℚ → Int) (today : Int)
    (s : SRSSettings) (w : VocabWord) (d : Difficulty) :
    (calculateSM2 addF today s w d).id = w.id
    ∧ (calculateSM2 addF today s w d).word = w.word
    ∧ (calculateSM2 addF today s w d).meaning = w.meaning
    ∧ (calculateSM2 addF today s w d).collectionId = w.collectionId
    ∧ (calculateSM2 addF today s w d).createdAt = w.createdAt :=
  ⟨rfl, rfl, rfl, rfl, rfl⟩

/-- C3: failing the card at the final cursor position ends the session with
the re-appended copy never shown.  With a one-card batch graded again, the
batch becomes two copies of the id, yet handleNext compares the cursor
against the render-time length 1 and transitions to Complete with the cursor
still at 0, so the appended occurrence at index 1 is unreachable: the claim
that every again-graded id reappears before Complete fails on the code. -/
theorem sessionDropsFailedLastCard :
    (handleRate ⟨[7], 0, [], false⟩ .again).complete = true
    ∧ (handleRate ⟨[7], 0, [], false⟩ .again).batch = [7, 7]
    ∧ (handleRate ⟨[7], 0, [], false⟩ .again).idx = 0 := by
  refine ⟨rfl, rfl, rfl⟩

/-- C6: the quoted addDays routes through a UTC parse, a local-time setDate
and a UTC re-serialization, so under a timezone whose offset grows by 60
minutes at UTC minute 144000 it is off by one day across the transition and
the round trip fails: addDays(addDays(0, 200), -200) evaluates to -1, not 0. -/
theorem addDaysJS_roundTrip_bug :
    addDaysJS dstOffsetUtc dstOffsetLocal 0 200 = 199
    ∧ addDaysJS dstOffsetUtc dstOffsetLocal
        (addDaysJS dstOffsetUtc dstOffsetLocal 0 200) (-200) = -1
    ∧ addDaysJS dstOffsetUtc dstOffsetLocal
        (addDaysJS dstOffsetUtc dstOffsetLocal 0 200) (-200) ≠ 0 := by
  refine ⟨by decide, by decide, by decide⟩

lemma getDaysDifference_eq_abs (a b : Int) :
    getDaysDifference a b = |b - a| := by
  unfold getDaysDifference msPerDay
  have h : |(b : ℚ) * 86400000 - (a : ℚ) * 86400000| / 86400000
      = ((|b - a| : Int) : ℚ) := by
    rw [show (b : ℚ) * 86400000 - (a : ℚ) * 86400000
        = ((b - a : Int) : ℚ) * 86400000 by push_cast; ring]
    rw [abs_mul, abs_of_nonneg (by norm_num : (0:ℚ) ≤ 86400000),
      mul_div_assoc, div_self (by norm_num : (86400000:ℚ) ≠ 0), mul_one,
      Int.cast_abs]
  show ⌈|(b : ℚ) * 86400000 - (a : ℚ) * 86400000| / 86400000⌉ = |b - a|
  rw [h, Int.ceil_intCast]

/-- C5: the quoted getDaysDifference applies Math.abs before dividing, so it
returns the unsigned distance: on the dates day 0 and day 1 both directions
give 1, refuting the signed contract and its antisymmetry. -/
theorem getDaysDifference_abs_bug :
    getDaysDifference 0 1 = 1
    ∧ getDaysDifference 1 0 = 1
    ∧ getDaysDifference 1 0 ≠ -getDaysDifference 0 1 := by
  rw [getDaysDifference_eq_abs, getDaysDifference_eq_abs]
  refine ⟨by decide, by decide, by decide⟩

/-- C1: calculateSM2 implements the SM-2 variant exactly.  A grade of again
resets repetitions and interval to 0 and floors the eased factor at 1.3 after
subtracting 0.2; a passing grade takes the interval from the first learning
step at 0 repetitions, the second at 1, and round(interval times easeFactor)
afterwards, then increments repetitions and adjusts the ease by grade.  The
final conjuncts replay the scenario: a fresh item with ease 2.5 and steps 1
and 6 graded good three times passes through intervals 1, 6 and 15 with
repetitions 1, 2 and 3. -/
theorem calculateSM2_spec (addF : Int → ℚ → Int) (today : Int)
    (s : SRSSettings) (w : VocabWord) (d : Difficulty) (hpass : d ≠ .again) :
    ((calculateSM2 addF today s w .again).repetitions = 0
      ∧ (calculateSM2 addF today s w .again).interval = 0
      ∧ (calculateSM2 addF today s w .again).easeFactor
          = max 1.3 (w.easeFactor - 0.2))
    ∧ ((w.repetitions = 0 →
          (calculateSM2 addF today s w d).interval = s.learningSteps.getD 0 0)
      ∧ (w.repetitions = 1 →
          (calculateSM2 addF today s w d).interval = s.learningSteps.getD 1 0)
      ∧ (2 ≤ w.repetitions →
          (calculateSM2 addF today s w d).interval
            = (jsRound (w.interval * w.easeFactor) : ℚ))
      ∧ (calculateSM2 addF today s w d).repetitions = w.repetitions + 1)
    ∧ ((calculateSM2 addF today s w .hard).easeFactor
          = max 1.3 (w.easeFactor - 0.15)
      ∧ (calculateSM2 addF today s w .good).easeFactor = w.easeFactor
      ∧ (calculateSM2 addF today s w .easy).easeFactor
          = w.easeFactor + 0.15)
    ∧ ((calculateSM2 addF today defaultSettings freshWord .good).interval = 1
      ∧ (calculateSM2 addF today defaultSettings freshWord .good).repetitions = 1
      ∧ (calculateSM2 addF today defaultSettings freshWord .good).easeFactor = 2.5
      ∧ (calculateSM2 addF today defaultSettings
          (calculateSM2 addF today defaultSettings freshWord .good) .good).interval = 6
      ∧ (calculateSM2 addF today defaultSettings
          (calculateSM2 addF today defaultSettings freshWord .good) .good).repetitions = 2
      ∧ (calculateSM2 addF today defaultSettings
          (calculateSM2 addF today defaultSettings
            (calculateSM2 addF today defaultSettings freshWord .good) .good) .good).interval = 15
      ∧ (calculateSM2 addF today defaultSettings
          (calculateSM2 addF today defaultSettings
            (calculateSM2 addF today defaultSettings freshWord .good) .good) .good).repetitions = 3) := by
  have h1i : (calculateSM2 addF today defaultSettings freshWord .good).interval = 1 := by
    rw [calcSM2_interval]; simp [sm2NewInterval, freshWord, defaultSettings]
  have h1r : (calculateSM2 addF today defaultSettings freshWord .good).repetitions = 1 := by
    rw [calcSM2_repetitions]; simp [sm2NewRepetitions, freshWord]
  have h1e : (calculateSM2 addF today defaultSettings freshWord .good).easeFactor = 2.5 := by
    rw [calcSM2_easeFactor]; simp [sm2NewEaseFactor, freshWord]
  have h2i : (calculateSM2 addF today defaultSettings
      (calculateSM2 addF today defaultSettings freshWord .good) .good).interval = 6 := by
    rw [calcSM2_interval]; simp [sm2NewInterval, h1r]; simp [defaultSettings]
  have h2r : (calculateSM2 addF today defaultSettings
      (calculateSM2 addF today defaultSettings freshWord .good) .good).repetitions = 2 := by
    rw [calcSM2_repetitions]; simp [sm2NewRepetitions, h1r]
  have h2e : (calculateSM2 addF today defaultSettings
      (calculateSM2 addF today defaultSettings freshWord .good) .good).easeFactor = 2.5 := by
    rw [calcSM2_easeFactor]; simp [sm2NewEaseFactor, h1e]
  have h3i : (calculateSM2 addF today defaultSettings
      (calculateSM2 addF today defaultSettings
        (calculateSM2 addF today defaultSettings freshWord .good) .good) .good).interval = 15 := by
    rw [calcSM2_interval]
    have hbr : sm2NewInterval defaultSettings
        (calculateSM2 addF today defaultSettings
          (calculateSM2 addF today defaultSettings freshWord .good) .good) .good
        = (jsRound ((calculateSM2 addF today defaultSettings
            (calculateSM2 addF today defaultSettings freshWord .good) .good).interval
          * (calculateSM2 addF today defaultSettings
            (calculateSM2 addF today defaultSettings freshWord .good) .good).easeFactor) : ℚ) := by
      simp [sm2NewInterval, h2r]
    rw [hbr, h2i, h2e]
    norm_num [jsRound]
  have h3r : (calculateSM2 addF today defaultSettings
      (calculateSM2 addF today defaultSettings
        (calculateSM2 addF today defaultSettings freshWord .good) .good) .good).repetitions = 3 := by
    rw [calcSM2_repetitions]; simp [sm2NewRepetitions, h2r]
  refine ⟨⟨?_, ?_, ?_⟩, ⟨?_, ?_, ?_, ?_⟩, ⟨?_, ?_, ?_⟩,
    h1i, h1r, h1e, h2i, h2r, h3i, h3r⟩
  · rw [calcSM2_repetitions]; simp [sm2NewRepetitions]
  · rw [calcSM2_interval]; simp [sm2NewInterval]
  · rw [calcSM2_easeFactor]; simp [sm2NewEaseFactor]
  · intro hr; rw [calcSM2_interval]; simp [sm2NewInterval, hpass, hr]
  · intro hr; rw [calcSM2_interval]; simp [sm2NewInterval, hpass, hr]
  · intro hr
    have hr0 : w.repetitions ≠ 0 := by omega
    have hr1 : w.repetitions ≠ 1 := by omega
    rw [calcSM2_interval]; simp [sm2NewInterval, hpass, hr0, hr1]
  · rw [calcSM2_repetitions]; simp [sm2NewRepetitions, hpass]
  · rw [calcSM2_easeFactor]; simp [sm2NewEaseFactor]
  · rw [calcSM2_easeFactor]; simp [sm2NewEaseFactor]
  · rw [calcSM2_easeFactor]; simp [sm2NewEaseFactor]

/-- Witness for C1 at a concrete input: the grade good is a passing grade and
a fresh item takes its interval from the first learning step. -/
theorem calculateSM2_spec_witness :
    Difficulty.good ≠ Difficulty.again
    ∧ (calculateSM2 idDate 0 defaultSettings freshWord .good).interval
        = defaultSettings.learningSteps.getD 0 0 := by
  refine ⟨by decide, ?_⟩
  exact (calculateSM2_spec idDate 0 defaultSettings freshWord .good
    (by decide)).2.1.1 rfl

lemma sm2NewEaseFactor_ge (w : VocabWord) (d : Difficulty)
    (h : (1.3:ℚ) ≤ w.easeFactor) : (1.3:ℚ) ≤ sm2NewEaseFactor w d := by
  cases d
  case again => show (1.3:ℚ) ≤ max 1.3 (w.easeFactor - 0.2); exact le_max_left _ _
  case hard => show (1.3:ℚ) ≤ max 1.3 (w.easeFactor - 0.15); exact le_max_left _ _
  case good => exact h
  case easy => show (1.3:ℚ) ≤ w.easeFactor + 0.15; linarith

/-- C4: the ease-factor floor is invariant: any grade applied to an item with
ease at least 1.3 yields an item with ease at least 1.3; an again grade zeroes
interval and repetitions without raising the ease, and iterating again keeps
interval and repetitions at 0 with the ease never dropping below 1.3. -/
theorem easeFactor_floor_invariant (addF : Int → ℚ → Int) (today : Int)
    (s : SRSSettings) (w : VocabWord) (d : Difficulty)
    (h : (1.3:ℚ) ≤ w.easeFactor) :
    (1.3:ℚ) ≤ (calculateSM2 addF today s w d).easeFactor
    ∧ (calculateSM2 addF today s w .again).interval = 0
    ∧ (calculateSM2 addF today s w .again).repetitions = 0
    ∧ (calculateSM2 addF today s w .again).easeFactor ≤ w.easeFactor
    ∧ ∀ n : Nat,
        (1.3:ℚ) ≤ ((fun x => calculateSM2 addF today s x .again)^[n] w).easeFactor
        ∧ (1 ≤ n →
            ((fun x => calculateSM2 addF today s x .again)^[n] w).interval = 0
            ∧ ((fun x => calculateSM2 addF today s x .again)^[n] w).repetitions = 0) := by
  have hiter : ∀ n : Nat,
      (1.3:ℚ) ≤ ((fun x => calculateSM2 addF today s x .again)^[n] w).easeFactor := by
    intro n
    induction n with
    | zero => simpa using h
    | succ k ih =>
      rw [Function.iterate_succ_apply']
      rw [calcSM2_easeFactor]
      exact sm2NewEaseFactor_ge _ _ ih
  refine ⟨?_, ?_, ?_, ?_, ?_⟩
  · rw [calcSM2_easeFactor]; exact sm2NewEaseFactor_ge _ _ h
  · rw [calcSM2_interval]; simp [sm2NewInterval]
  · rw [calcSM2_repetitions]; simp [sm2NewRepetitions]
  · rw [calcSM2_easeFactor]
    show max 1.3 (w.easeFactor - 0.2) ≤ w.easeFactor
    exact max_le h (by linarith)
  · intro n
    refine ⟨hiter n, ?_⟩
    intro hn
    obtain ⟨k, rfl⟩ : ∃ k, n = k + 1 := ⟨n - 1, by omega⟩
    rw [Function.iterate_succ_apply']
    constructor
    · rw [calcSM2_interval]; simp [sm2NewInterval]
    · rw [calcSM2_repetitions]; simp [sm2NewRepetitions]

/-- Witness for C4 at a concrete input: a fresh item has ease 2.5 and keeps
the 1.3 floor after an again grade. -/
theorem easeFactor_floor_witness :
    (1.3:ℚ) ≤ freshWord.easeFactor
    ∧ (1.3:ℚ) ≤ (calculateSM2 idDate 0 defaultSettings freshWord .again).easeFactor := by
  have hw : (1.3:ℚ) ≤ freshWord.easeFactor := by norm_num [freshWord]
  exact ⟨hw, (easeFactor_floor_invariant idDate 0 defaultSettings freshWord .again hw).1⟩

/-- C7: mastery is sticky and monotone toward true: a mastered item stays
mastered under every grade, and with the auto-mature flag on any grading that
produces an interval of at least 60 sets mastered. -/
theorem mastered_sticky_spec (addF : Int → ℚ → Int) (today : Int)
    (s : SRSSettings) (w : VocabWord) (d : Difficulty) :
    (w.mastered = true → (calculateSM2 addF today s w d).mastered = true)
    ∧ (s.autoMature = true →
        (60:ℚ) ≤ (calculateSM2 addF today s w d).interval →
        (calculateSM2 addF today s w d).mastered = true) := by
  constructor
  · intro hm
    rw [calcSM2_mastered]
    simp [sm2IsMastered, hm]
  · intro ha hi
    rw [calcSM2_interval] at hi
    rw [calcSM2_mastered, ha]
    simp [sm2IsMastered, hi]

/-- Witness for C7 at concrete inputs: an already-mastered word failed with
again stays mastered, and a 40-day word graded good reaches interval 100 and
is promoted under the default auto-mature setting. -/
theorem mastered_sticky_witness :
    (calculateSM2 idDate 0 defaultSettings masteredWord .again).mastered = true
    ∧ (calculateSM2 idDate 0 defaultSettings matureWord .good).mastered = true := by
  constructor
  · exact (mastered_sticky_spec idDate 0 defaultSettings masteredWord .again).1 rfl
  · refine (mastered_sticky_spec idDate 0 defaultSettings matureWord .good).2 rfl ?_
    rw [calcSM2_interval]
    have hbr : sm2NewInterval defaultSettings matureWord .good
        = (jsRound (matureWord.interval * matureWord.easeFactor) : ℚ) := by
      simp [sm2NewInterval, matureWord, freshWord]
    rw [hbr]
    norm_num [jsRound, matureWord, freshWord]

/-- C9 counterexample: the loader performs no flooring.  Storing the learning
steps 0 and 6 makes getSRSSettings hand the 0 through verbatim, and grading a
fresh item with a passing grade assigns interval 0, below 1 day, refuting the
claim that the engine floors learning-step values at 1. -/
theorem learningSteps_noFloor_cex :
    loadLearningSteps (some (.arr [0, 6])) = [0, 6]
    ∧ (calculateSM2 idDate 0
        ⟨some 10, some 100, true, loadLearningSteps (some (.arr [0, 6]))⟩
        freshWord .good).interval = 0
    ∧ ¬ ((1:ℚ) ≤ (calculateSM2 idDate 0
        ⟨some 10, some 100, true, loadLearningSteps (some (.arr [0, 6]))⟩
        freshWord .good).interval) := by
  have hload : loadLearningSteps (some (.arr [0, 6])) = [0, 6] := by
    simp [loadLearningSteps]
  have hzero : (calculateSM2 idDate 0
      ⟨some 10, some 100, true, loadLearningSteps (some (.arr [0, 6]))⟩
      freshWord .good).interval = 0 := by
    rw [calcSM2_interval, hload]
    simp [sm2NewInterval, freshWord]
  refine ⟨hload, hzero, ?_⟩
  rw [hzero]
  norm_num

/-- C9 amended: the engine does not floor learning steps.  The loader uses a
stored array of length at least 2 verbatim (falling back to the default list
1, 6 otherwise), and on a passing grade the interval is the raw stored step
for the item's repetition count, whatever its value. -/
theorem learningSteps_used_verbatim (l : List ℚ) (hl : 2 ≤ l.length)
    (addF : Int → ℚ → Int) (today : Int) (ncl mrl : Option Nat) (am : Bool)
    (w : VocabWord) (d : Difficulty) (hd : d ≠ .again) :
    loadLearningSteps (some (.arr l)) = l
    ∧ (w.repetitions = 0 →
        (calculateSM2 addF today ⟨ncl, mrl, am, l⟩ w d).interval = l.getD 0 0)
    ∧ (w.repetitions = 1 →
        (calculateSM2 addF today ⟨ncl, mrl, am, l⟩ w d).interval = l.getD 1 0) := by
  refine ⟨by simp [loadLearningSteps, hl], ?_, ?_⟩
  · intro hr; rw [calcSM2_interval]; simp [sm2NewInterval, hd, hr]
  · intro hr; rw [calcSM2_interval]; simp [sm2NewInterval, hd, hr]

/-- Witness for the amended C9 at a concrete input: the stored steps 0 and 6
are used verbatim and a fresh word graded good gets the raw first step. -/
theorem learningSteps_used_verbatim_witness :
    loadLearningSteps (some (.arr [0, 6])) = [0, 6]
    ∧ (calculateSM2 idDate 0 ⟨some 10, some 100, true, ([0, 6] : List ℚ)⟩
        freshWord .good).interval = ([0, 6] : List ℚ).getD 0 0 := by
  obtain ⟨h1, h2, h3⟩ := learningSteps_used_verbatim [0, 6] (by norm_num)
    idDate 0 (some 10) (some 100) true freshWord .good (by decide)
  exact ⟨h1, h2 rfl⟩

lemma ifCoeFalse {α : Sort _} {inst : Decidable (false = true)} (a b : α) :
    @ite α (false = true) inst a b = b :=
  if_neg fun h => Bool.noConfusion h

/-- C2: the normal-mode quota arithmetic of handleStartSession under finite
limits M (max reviews) and N (new cards) and no session-size cap.  When the
review slots max(0, M - reviewsToday) are exhausted the start fails with the
quota signal and the caller stays on the setup screen; otherwise the batch is
the review subset truncated to the review slots followed by the new subset
truncated to min(max(0, N - newToday), slots left), reviews first. -/
theorem startSession_quota_spec (dueF : VocabWord → Bool) (cid : Option String)
    (M N cr cn : Nat) (am : Bool) (steps : List ℚ) (words : List VocabWord) :
    (M ≤ cr →
      handleStartSession dueF false cid ⟨some N, some M, am, steps⟩ cr cn none words
        = .quotaExhausted)
    ∧ (cr < M → specQuotaPool dueF cid M N cr cn words ≠ [] →
      handleStartSession dueF false cid ⟨some N, some M, am, steps⟩ cr cn none words
        = .ok (specQuotaPool dueF cid M N cr cn words)) := by
  constructor
  · intro hle
    have hz : M - cr = 0 := Nat.sub_eq_zero_of_le hle
    simp [handleStartSession, limSub, limLeZero, hz]
  · intro hlt hne
    have hz : (M - cr == 0) = false := by
      simp only [beq_eq_false_iff_ne, ne_eq, Nat.sub_eq_zero_iff_le]
      omega
    have hemp : (specQuotaPool dueF cid M N cr cn words).isEmpty = false := by
      cases hp : specQuotaPool dueF cid M N cr cn words with
      | nil => exact absurd hp hne
      | cons a l => rfl
    simp only [specQuotaPool] at hemp
    simp only [handleStartSession, limSub, limLeZero, limMin, limTake, hz,
      specQuotaPool, hemp, Bool.false_and, ifCoeFalse]

/-- Witness for C2 at the scenario input: five due review-type words, new
limit 10, review limit 3, nothing done today, no cap: the start succeeds and
the batch has exactly 3 items; with three reviews already done the same start
is rejected with the quota signal. -/
theorem startSession_quota_witness :
    (handleStartSession (fun _ => true) false none
        ⟨some 10, some 3, true, [1, 6]⟩ 0 0 none scenarioWords).batchLength = 3
    ∧ handleStartSession (fun _ => true) false none
        ⟨some 10, some 3, true, [1, 6]⟩ 3 0 none scenarioWords = .quotaExhausted := by
  constructor
  · have h := (startSession_quota_spec (fun _ => true) none 3 10 0 0 true [1, 6]
      scenarioWords).2 (by norm_num) (by decide)
    rw [h]
    decide
  · exact (startSession_quota_spec (fun _ => true) none 3 10 3 0 true [1, 6]
      scenarioWords).1 (by norm_num)

/-- C8: practice sessions have no quota or persistence effects.  The batch a
practice start builds is independent of the daily counter values (they are
never consulted), completing a practice session leaves the counts store
untouched, and practice grading makes no onUpdateWord persistence call while
still writing the transient calculateSM2 copy into the in-memory session
list. -/
theorem practiceMode_frame_spec :
    (∀ (dueF : VocabWord → Bool) (cid : Option String) (s : SRSSettings)
        (cr1 cn1 cr2 cn2 : Nat) (cap : Option Nat) (words : List VocabWord),
      handleStartSession dueF true cid s cr1 cn1 cap words
        = handleStartSession dueF true cid s cr2 cn2 cap words)
    ∧ (∀ (c n : Nat) (today : Int) (st : CountsStore),
      handleSessionComplete true c n today st = st)
    ∧ (∀ (addF : Int → ℚ → Int) (today : Int) (s : SRSSettings)
        (sw : List VocabWord) (w : VocabWord) (d : Difficulty),
      (handleRateEffects true addF today s sw w d).persisted = []
      ∧ (handleRateEffects true addF today s sw w d).sessionWords
          = sw.map fun x =>
              if x.id = (calculateSM2 addF today s w d).id
              then calculateSM2 addF today s w d else x) :=
  ⟨fun _ _ _ _ _ _ _ _ _ => rfl, fun _ _ _ _ => rfl,
    fun _ _ _ _ _ _ => ⟨rfl, rfl⟩⟩

end VocabLah
